import Mathlib

/-!
Verification of the Session Authenticator of the exerciselog-app repository
(file `auth.service.ts`, class `AuthService`, plus the startup file
`main.ts`).  The user store (`UsersService`), the bcrypt wrapper
(`utils/bcrypt`) and the token signer (`JwtService`) are external
collaborators of the Authenticator; they are modelled from the spec where
their sources are not part of the extracted sources.

State threading: the mutable pieces of the world are the user store (a list
of user records) and the HTTP response sink (the ordered list of cookie
operations emitted so far).  Every operation returns its `Except` outcome
together with the store and the sink as they stand when the operation
finishes, so that partial effects before a thrown error stay visible,
exactly as they do on a real mutable response object.
-/

/-- User record as held by the user store: `id`, `email`, hashed
`password`, nullable `refreshToken` (the stored refresh-token hash). -/
structure UserEntity where
  id : String
  email : String
  password : String
  refreshToken : Option String
deriving DecidableEq, Repr

/-- The user store state: the list of user records. -/
abbrev Store := List UserEntity

/-- Signup input: `CreateUserDto` carries an email and a plaintext
password. -/
structure CreateUserDto where
  email : String
  password : String
deriving DecidableEq, Repr

/-- One cookie operation emitted on the response sink, in emission order:
either setting a named cookie with its flags and expiry instant (ms since
epoch), or clearing a named cookie. -/
inductive CookieOp where
  | set (name value : String) (httpOnly secure : Bool) (expires : Nat)
  | clear (name : String)
deriving DecidableEq, Repr

/-- The response sink: cookie operations in the order they were emitted. -/
abbrev Response := List CookieOp

/-- Error taxonomy crossing the Authenticator boundary:
`unauthorized msg` models `UnauthorizedException(msg)`, `notFound` models
the NotFound error thrown by the store lookups, `typeError` models a
runtime TypeError such as reading a field of an absent value. -/
inductive AuthError where
  | unauthorized (msg : String)
  | notFound
  | typeError
deriving DecidableEq, Repr

/-- Modelled from the spec: the one-way password hasher `encrypt` of
`utils/bcrypt` (bcrypt hashing).  Modelled as an injective tagging
function; one-way-ness is irrelevant to the claims, only the compare
semantics below matter. -/
def encrypt (value : String) : String :=
  "$2b$10$" ++ value

/-- Modelled from the spec: `compareValueWithHash` of `utils/bcrypt`
(constant-time bcrypt compare) succeeds exactly when the hash of the value
equals the stored hash. -/
def compareValueWithHash (value hash : String) : Bool :=
  encrypt value == hash

/-- Modelled from the spec: bcrypt compare invoked with an absent stored
hash (a `null` second argument) rejects instead of returning a boolean, so
it never authenticates; with a present hash it behaves as
`compareValueWithHash`. -/
def compareValueWithHashN (value : String) (hash : Option String) :
    Except AuthError Bool :=
  match hash with
  | none => .error .typeError
  | some h => .ok (compareValueWithHash value h)

/-- Modelled from the spec: user-store lookup by email
(`usersService.findOne(email, throwIfNotFound)`); returns the first record
with that email, fails NotFound when absent and the flag is set, returns
`none` gracefully when absent and the flag is cleared. -/
def findOne (s : Store) (email : String) (throwIfNotFound : Bool) :
    Except AuthError (Option UserEntity) :=
  match s.find? (fun u => u.email == email) with
  | some u => .ok (some u)
  | none => if throwIfNotFound then .error .notFound else .ok none

/-- Modelled from the spec: user-store lookup by id
(`usersService.findOneById(id)`); fails NotFound when absent. -/
def findOneById (s : Store) (id : String) : Except AuthError UserEntity :=
  match s.find? (fun u => u.id == id) with
  | some u => .ok u
  | none => .error .notFound

/-- Modelled from the spec: user-store field update
(`usersService.update(id, fields)`) restricted to the one field the
Authenticator ever updates, the stored refresh-token hash; fails NotFound
when no record has the id, otherwise rewrites the field on every record
with that id. -/
def updateRefreshToken (s : Store) (id : String) (rt : Option String) :
    Except AuthError Store :=
  if s.any (fun u => u.id == id) then
    .ok (s.map (fun u => if u.id == id then { u with refreshToken := rt } else u))
  else
    .error .notFound

/-- Modelled from the spec: user-store creation
(`usersService.create(data)`); the store hashes the password and assigns a
fresh unique id (a UUID in the source).  The generated id is modelled as an
explicit parameter, assumed fresh where uniqueness matters. -/
def create (s : Store) (d : CreateUserDto) (newId : String) :
    Store × UserEntity :=
  let u : UserEntity :=
    { id := newId, email := d.email, password := encrypt d.password,
      refreshToken := none }
  (s ++ [u], u)

/-- Validated configuration of the Authenticator: the four required values
(two signing secrets, two token lifetimes in milliseconds). -/
structure Config where
  accessTokenSecret : String
  accessTokenExpirationMs : Nat
  refreshTokenSecret : String
  refreshTokenExpirationMs : Nat
deriving DecidableEq, Repr

/-- Modelled from the spec: `jwtService.sign(payload, options)` produces a
compact signed token carrying exactly the payload (the user id), signed
with the given secret and expiry.  Modelled as an injective encoding. -/
def jwtSign (userId secret : String) (expiresInMs : Nat) : String :=
  secret ++ "." ++ toString expiresInMs ++ "." ++ userId

/-- Result record of `generateTokens`: the two signed tokens and their two
expiry instants (ms since epoch). -/
structure TokenBundle where
  expireAccessToken : Nat
  expireRefreshToken : Nat
  accessToken : String
  refreshToken : String
deriving DecidableEq, Repr

/-- Fixed access-token cookie name of `AuthService`. -/
def ACCESS_TOKEN_COOKIE : String := "Authentication"

/-- Fixed refresh-token cookie name of `AuthService`. -/
def REFRESH_TOKEN_COOKIE : String := "Refresh"

/-- Translation of `AuthService.generateTokens(userId)`: expiry instants
are now plus the configured lifetimes, the payload carries only the user
id, and the payload is signed twice, once with the access secret and
lifetime and once with the refresh secret and lifetime.  The ad hoc
`process.env` reads of the source are the fields of `cfg`; `now` is the
clock reading. -/
def generateTokens (cfg : Config) (now : Nat) (userId : String) :
    TokenBundle :=
  { expireAccessToken := now + cfg.accessTokenExpirationMs,
    expireRefreshToken := now + cfg.refreshTokenExpirationMs,
    accessToken := jwtSign userId cfg.accessTokenSecret cfg.accessTokenExpirationMs,
    refreshToken := jwtSign userId cfg.refreshTokenSecret cfg.refreshTokenExpirationMs }

/-- Translation of `AuthService.setCookies`: first persist the hash of the
refresh token against the user record, then emit the access-token cookie
and then the refresh-token cookie, both HttpOnly and Secure, each with its
own expiry.  A store failure propagates before any cookie is emitted. -/
def setCookies (s : Store) (resp : Response) (userId : String)
    (accessToken refreshToken : String) (expireAccessToken expireRefreshToken : Nat) :
    Except AuthError Unit × Store × Response :=
  match updateRefreshToken s userId (some (encrypt refreshToken)) with
  | .error e => (.error e, s, resp)
  | .ok s1 =>
    (.ok (), s1,
      resp ++
        [CookieOp.set ACCESS_TOKEN_COOKIE accessToken true true expireAccessToken,
         CookieOp.set REFRESH_TOKEN_COOKIE refreshToken true true expireRefreshToken])

/-- Translation of `AuthService.clearCookies`: remove the refresh-token
cookie first, then the access-token cookie. -/
def clearCookies (resp : Response) : Response :=
  resp ++ [CookieOp.clear REFRESH_TOKEN_COOKIE, CookieOp.clear ACCESS_TOKEN_COOKIE]

/-- Translation of `AuthService.login(user, response)`: generate the token
bundle for `user.id` and hand everything to `setCookies`. -/
def login (cfg : Config) (now : Nat) (s : Store) (resp : Response)
    (user : UserEntity) : Except AuthError Unit × Store × Response :=
  let g := generateTokens cfg now user.id
  setCookies s resp user.id g.accessToken g.refreshToken
    g.expireAccessToken g.expireRefreshToken

/-- Translation of `AuthService.signup(userData, response)`: look the email
up tolerating absence, fail Unauthorized when a user exists, otherwise
create the user and proceed exactly as login does.  `newId` is the fresh id
the store assigns to the created user. -/
def signup (cfg : Config) (now : Nat) (s : Store) (resp : Response)
    (userData : CreateUserDto) (newId : String) :
    Except AuthError Unit × Store × Response :=
  match findOne s userData.email false with
  | .error e => (.error e, s, resp)
  | .ok (some _) => (.error (.unauthorized "User already exists."), s, resp)
  | .ok none =>
    let c := create s userData newId
    let g := generateTokens cfg now c.2.id
    setCookies c.1 resp c.2.id g.accessToken g.refreshToken
      g.expireAccessToken g.expireRefreshToken

/-- Translation of `AuthService.logout(user, response)`: set the stored
refresh-token hash of the user to null, then clear both cookies.  A store
failure propagates before the cookies are touched. -/
def logout (s : Store) (resp : Response) (user : UserEntity) :
    Except AuthError Unit × Store × Response :=
  match updateRefreshToken s user.id none with
  | .error e => (.error e, s, resp)
  | .ok s1 => (.ok (), s1, clearCookies resp)

/-- Body of the try block of `AuthService.validateUser`: look the user up
by email (the lookup throws NotFound when absent), compare the plaintext
password against the stored password hash, throw Unauthorized when the
comparison fails. -/
def validateUserTry (s : Store) (email password : String) :
    Except AuthError UserEntity :=
  match findOne s email true with
  | .error e => .error e
  | .ok none => .error .typeError
  | .ok (some user) =>
    if compareValueWithHash password user.password then .ok user
    else .error (.unauthorized "")

/-- Translation of `AuthService.validateUser(email, password)`: the try
body with every failure collapsed by the catch block into one generic
Unauthorized error with the fixed message.  The store comes back in the
second component, untouched by this read-only operation. -/
def validateUser (s : Store) (email password : String) :
    Except AuthError UserEntity × Store :=
  match validateUserTry s email password with
  | .ok user => (.ok user, s)
  | .error _ => (.error (.unauthorized "Credentials are not valid."), s)

/-- Body of the try block of `AuthService.verifyUserRefreshToken`: look the
user up by id (throws NotFound when absent), compare the presented token
with the nullable stored hash (the compare rejects a null hash), throw
Unauthorized when the comparison fails. -/
def verifyUserRefreshTokenTry (s : Store) (refreshToken userId : String) :
    Except AuthError UserEntity :=
  match findOneById s userId with
  | .error e => .error e
  | .ok user =>
    match compareValueWithHashN refreshToken user.refreshToken with
    | .error e => .error e
    | .ok authenticated =>
      if authenticated then .ok user else .error (.unauthorized "")

/-- Translation of `AuthService.verifyUserRefreshToken(refreshToken,
userId)`: the try body with every failure collapsed by the catch block into
one generic Unauthorized error with the fixed message.  The store comes
back untouched. -/
def verifyUserRefreshToken (s : Store) (refreshToken userId : String) :
    Except AuthError UserEntity × Store :=
  match verifyUserRefreshTokenTry s refreshToken userId with
  | .ok user => (.ok user, s)
  | .error _ => (.error (.unauthorized "Refresh token is not valid."), s)

/-- Pure lookup by id used to state correctness: the first record with the
given id, if any. -/
def findUserById (s : Store) (id : String) : Option UserEntity :=
  s.find? (fun u => u.id == id)

/-- Pure lookup by email used to state correctness: the first record with
the given email, if any. -/
def findUserByEmail (s : Store) (email : String) : Option UserEntity :=
  s.find? (fun u => u.email == email)

/-- Concrete demo store used by witnesses: two users, the first with a
stored refresh-token hash, the second without one. -/
def demoStore : Store :=
  [{ id := "u1", email := "a@x.io", password := encrypt "pwA",
     refreshToken := some (encrypt "tokA") },
   { id := "u2", email := "b@x.io", password := encrypt "pwB",
     refreshToken := none }]

/-- Concrete demo configuration used by witnesses. -/
def demoConfig : Config :=
  { accessTokenSecret := "sA", accessTokenExpirationMs := 1000,
    refreshTokenSecret := "sR", refreshTokenExpirationMs := 5000 }

/-- Outcome of `verifyUserRefreshToken` as a function of the pure lookup:
the user record when the id resolves and the stored hash equals the hash of
the presented token, the one generic Unauthorized error otherwise. -/
theorem verifyUserRefreshToken_eq_lookup (s : Store) (rt uid : String) :
    (verifyUserRefreshToken s rt uid).1 =
      match findUserById s uid with
      | some u =>
        if u.refreshToken = some (encrypt rt) then Except.ok u
        else Except.error (.unauthorized "Refresh token is not valid.")
      | none => Except.error (.unauthorized "Refresh token is not valid.") := by
  unfold verifyUserRefreshToken verifyUserRefreshTokenTry findOneById
    findUserById compareValueWithHashN compareValueWithHash
  cases hf : s.find? (fun u => u.id == uid) with
  | none => simp
  | some u =>
    cases hr : u.refreshToken with
    | none => simp [hr]
    | some h =>
      by_cases he : encrypt rt = h
      · simp [hr, he]
      · simp [hr, he, Ne.symm he]

/-- C1: `verifyUserRefreshToken(presentedRefreshToken, userId)` returns the
user record exactly when the user with that id exists, holds a stored
refresh-token hash, and the presented token matches that hash under the
one-way comparator; in every other case (user absent, no stored hash, or
mismatch) it fails with the one generic Unauthorized error with message
"Refresh token is not valid.", so a token valid for user A fails for user B
whose stored hash does not match it. -/
theorem C1_verifyUserRefreshToken_correct (s : Store) (rt uid : String) :
    (verifyUserRefreshToken s rt uid).1 =
      match findUserById s uid with
      | some u =>
        if u.refreshToken = some (encrypt rt) then Except.ok u
        else Except.error (.unauthorized "Refresh token is not valid.")
      | none => Except.error (.unauthorized "Refresh token is not valid.") :=
  verifyUserRefreshToken_eq_lookup s rt uid

/-- C2: `validateUser(email, password)` returns the user record exactly
when the lookup by email succeeds and the password comparison succeeds; on
every failure path (unknown email, wrong password, lookup error) it fails
with the same single generic Unauthorized error carrying the fixed message
"Credentials are not valid.". -/
theorem C2_validateUser_correct (s : Store) (email password : String) :
    (validateUser s email password).1 =
      match findUserByEmail s email with
      | some u =>
        if u.password = encrypt password then Except.ok u
        else Except.error (.unauthorized "Credentials are not valid.")
      | none => Except.error (.unauthorized "Credentials are not valid.") := by
  unfold validateUser validateUserTry findOne findUserByEmail compareValueWithHash
  cases hf : s.find? (fun u => u.email == email) with
  | none => simp
  | some u =>
    by_cases he : encrypt password = u.password
    · simp [he]
    · simp [he, Ne.symm he]

/-- C9: the two read-only operations `validateUser` and
`verifyUserRefreshToken` never modify the user store: on every input, on
success as on failure, the store after the call is exactly the store
before it. -/
theorem C9_validators_preserve_store (s : Store)
    (email password rt uid : String) :
    (validateUser s email password).2 = s ∧
      (verifyUserRefreshToken s rt uid).2 = s := by
  constructor
  · unfold validateUser
    cases validateUserTry s email password <;> rfl
  · unfold verifyUserRefreshToken
    cases verifyUserRefreshTokenTry s rt uid <;> rfl

/-- First demo user, present in `demoStore`. -/
def demoUser1 : UserEntity :=
  { id := "u1", email := "a@x.io", password := encrypt "pwA",
    refreshToken := some (encrypt "tokA") }

/-- Hashing never returns its input: the modelled bcrypt hash of a value
differs from the value (their lengths differ). -/
theorem encrypt_ne_self (v : String) : encrypt v ≠ v := by
  intro h
  have hl := congrArg String.length h
  rw [encrypt, String.length_append] at hl
  have h7 : ("$2b$10$" : String).length = 7 := rfl
  rw [h7] at hl
  omega

/-- C3: a successful `login(user, sink)` generates the fresh token bundle
for `user.id`, persists the one-way hash of the fresh refresh token (never
the plaintext token, which differs from its hash) against the user record,
and appends exactly two cookies to the sink: the access token under the
fixed name and the refresh token under the distinct fixed name, both
HttpOnly and Secure, each with its own expiry instant. -/
theorem C3_login_success (cfg : Config) (now : Nat) (s : Store)
    (resp : Response) (user : UserEntity)
    (h : s.any (fun u => u.id == user.id) = true) :
    (login cfg now s resp user).1 = Except.ok () ∧
    (login cfg now s resp user).2.1 =
      s.map (fun u =>
        if u.id == user.id then
          { u with refreshToken := some (encrypt (generateTokens cfg now user.id).refreshToken) }
        else u) ∧
    (login cfg now s resp user).2.2 =
      resp ++
        [CookieOp.set ACCESS_TOKEN_COOKIE
          (generateTokens cfg now user.id).accessToken true true
          (generateTokens cfg now user.id).expireAccessToken,
         CookieOp.set REFRESH_TOKEN_COOKIE
          (generateTokens cfg now user.id).refreshToken true true
          (generateTokens cfg now user.id).expireRefreshToken] ∧
    encrypt (generateTokens cfg now user.id).refreshToken ≠
      (generateTokens cfg now user.id).refreshToken ∧
    ACCESS_TOKEN_COOKIE ≠ REFRESH_TOKEN_COOKIE := by
  unfold login setCookies updateRefreshToken
  refine ⟨by simp [h], by simp [h], by simp [h], encrypt_ne_self _, by decide⟩

/-- Witness for C3 at a concrete input: user u1 of the demo store. -/
theorem C3_login_success_witness :
    (login demoConfig 0 demoStore [] demoUser1).1 = Except.ok () ∧
    (login demoConfig 0 demoStore [] demoUser1).2.1 =
      demoStore.map (fun u =>
        if u.id == demoUser1.id then
          { u with refreshToken := some (encrypt (generateTokens demoConfig 0 demoUser1.id).refreshToken) }
        else u) ∧
    (login demoConfig 0 demoStore [] demoUser1).2.2 =
      [CookieOp.set ACCESS_TOKEN_COOKIE
        (generateTokens demoConfig 0 demoUser1.id).accessToken true true
        (generateTokens demoConfig 0 demoUser1.id).expireAccessToken,
       CookieOp.set REFRESH_TOKEN_COOKIE
        (generateTokens demoConfig 0 demoUser1.id).refreshToken true true
        (generateTokens demoConfig 0 demoUser1.id).expireRefreshToken] ∧
    encrypt (generateTokens demoConfig 0 demoUser1.id).refreshToken ≠
      (generateTokens demoConfig 0 demoUser1.id).refreshToken ∧
    ACCESS_TOKEN_COOKIE ≠ REFRESH_TOKEN_COOKIE :=
  C3_login_success demoConfig 0 demoStore [] demoUser1 (by decide)

/-- C4: `generateTokens` builds a payload containing only the user id,
signs it once with the access secret and lifetime and once with the refresh
secret and lifetime, and returns the two tokens together with expiry
instants equal to now plus the respective configured lifetime; when the
access lifetime is smaller than the refresh lifetime, the access expiry
instant is strictly earlier than the refresh expiry instant. -/
theorem C4_generateTokens_correct (cfg : Config) (now : Nat) (userId : String)
    (h : cfg.accessTokenExpirationMs < cfg.refreshTokenExpirationMs) :
    generateTokens cfg now userId =
      { expireAccessToken := now + cfg.accessTokenExpirationMs,
        expireRefreshToken := now + cfg.refreshTokenExpirationMs,
        accessToken :=
          jwtSign userId cfg.accessTokenSecret cfg.accessTokenExpirationMs,
        refreshToken :=
          jwtSign userId cfg.refreshTokenSecret cfg.refreshTokenExpirationMs } ∧
    (generateTokens cfg now userId).expireAccessToken <
      (generateTokens cfg now userId).expireRefreshToken := by
  refine ⟨rfl, ?_⟩
  simpa [generateTokens] using Nat.add_lt_add_left h now

/-- Witness for C4 at a concrete input: the demo configuration, whose
access lifetime (1000 ms) is smaller than its refresh lifetime (5000 ms). -/
theorem C4_generateTokens_correct_witness :
    generateTokens demoConfig 0 "u1" =
      { expireAccessToken := 0 + demoConfig.accessTokenExpirationMs,
        expireRefreshToken := 0 + demoConfig.refreshTokenExpirationMs,
        accessToken :=
          jwtSign "u1" demoConfig.accessTokenSecret demoConfig.accessTokenExpirationMs,
        refreshToken :=
          jwtSign "u1" demoConfig.refreshTokenSecret demoConfig.refreshTokenExpirationMs } ∧
    (generateTokens demoConfig 0 "u1").expireAccessToken <
      (generateTokens demoConfig 0 "u1").expireRefreshToken :=
  C4_generateTokens_correct demoConfig 0 "u1" (by decide)

/-- C5: `signup` with an email already present fails with the Unauthorized
error "User already exists." and changes neither the store nor the sink
(the existence check tolerates absence without throwing, so the absent case
never errors); with a fresh email it creates the user via the store and
then behaves exactly as `login` applied to the created user. -/
theorem C5_signup_correct (cfg : Config) (now : Nat) (s : Store)
    (resp : Response) (d : CreateUserDto) (newId : String) :
    signup cfg now s resp d newId =
      if s.any (fun u => u.email == d.email) then
        (Except.error (.unauthorized "User already exists."), s, resp)
      else
        login cfg now (create s d newId).1 resp (create s d newId).2 := by
  unfold signup findOne
  cases hf : s.find? (fun u => u.email == d.email) with
  | none =>
    have ha : s.any (fun u => u.email == d.email) = false := by
      rw [← Bool.not_eq_true, List.any_eq_true]
      rintro ⟨x, hx, hp⟩
      exact absurd hp (by simpa using List.find?_eq_none.mp hf x hx)
    simp [ha, login]
  | some u =>
    have hp := List.find?_some hf
    have ha : s.any (fun u => u.email == d.email) = true := by
      rw [List.any_eq_true]
      exact ⟨u, List.mem_of_find?_eq_some hf, by simpa using hp⟩
    simp [ha]

/-- After rewriting the stored refresh-token hash of a user that is present
in the store, the lookup by that id yields a record whose stored hash is
the rewritten value. -/
theorem findUserById_after_update (s : Store) (id : String)
    (rt : Option String) (h : s.any (fun u => u.id == id) = true) :
    ∃ w, findUserById
        (s.map (fun u => if u.id == id then { u with refreshToken := rt } else u)) id =
          some w ∧ w.refreshToken = rt := by
  induction s with
  | nil => simp at h
  | cons a l ih =>
    by_cases ha : a.id == id
    · refine ⟨{ a with refreshToken := rt }, ?_, rfl⟩
      unfold findUserById
      rw [List.map_cons,
        show (if a.id == id then ({ a with refreshToken := rt } : UserEntity) else a) =
          { a with refreshToken := rt } from by simp [ha]]
      exact List.find?_cons_of_pos _ ha
    · have hl : l.any (fun u => u.id == id) = true := by
        rcases List.any_eq_true.mp h with ⟨x, hx, hp⟩
        rcases List.mem_cons.mp hx with rfl | hxl
        · exact absurd hp ha
        · exact List.any_eq_true.mpr ⟨x, hxl, hp⟩
      rcases ih hl with ⟨w, hw, hwr⟩
      refine ⟨w, ?_, hwr⟩
      unfold findUserById at hw ⊢
      rw [List.map_cons,
        show (if a.id == id then ({ a with refreshToken := rt } : UserEntity) else a) = a
          from by simp [ha],
        List.find?_cons_of_neg (p := fun u : UserEntity => u.id == id) _ ha]
      exact hw

/-- C6: `logout(user, sink)` for a user present in the store sets the
stored refresh-token hash of that user to absent, appends removals of both
named cookies to the sink unconditionally (refresh-token cookie first, no
error whatever cookies the sink holds), and afterwards
`verifyUserRefreshToken` for that user fails with the generic Unauthorized
error for every presented token. -/
theorem C6_logout_correct (s : Store) (resp : Response) (user : UserEntity)
    (h : s.any (fun u => u.id == user.id) = true) :
    (logout s resp user).1 = Except.ok () ∧
    (logout s resp user).2.1 =
      s.map (fun u =>
        if u.id == user.id then { u with refreshToken := none } else u) ∧
    (logout s resp user).2.2 =
      resp ++ [CookieOp.clear REFRESH_TOKEN_COOKIE,
               CookieOp.clear ACCESS_TOKEN_COOKIE] ∧
    ∀ t, (verifyUserRefreshToken (logout s resp user).2.1 t user.id).1 =
      Except.error (.unauthorized "Refresh token is not valid.") := by
  have hst : (logout s resp user).2.1 =
      s.map (fun u =>
        if u.id == user.id then { u with refreshToken := none } else u) := by
    unfold logout updateRefreshToken
    simp [h]
  refine ⟨?_, hst, ?_, ?_⟩
  · unfold logout updateRefreshToken
    simp [h]
  · unfold logout updateRefreshToken clearCookies
    simp [h]
  · intro t
    rw [verifyUserRefreshToken_eq_lookup, hst]
    rcases findUserById_after_update s user.id none h with ⟨w, hw, hwr⟩
    rw [hw]
    simp [hwr]

/-- Witness for C6 at a concrete input: user u1 of the demo store, with the
concrete token "tokA" instantiating the universally quantified conjunct. -/
theorem C6_logout_correct_witness :
    (logout demoStore [] demoUser1).1 = Except.ok () ∧
    (logout demoStore [] demoUser1).2.1 =
      demoStore.map (fun u =>
        if u.id == demoUser1.id then { u with refreshToken := none } else u) ∧
    (logout demoStore [] demoUser1).2.2 =
      [CookieOp.clear REFRESH_TOKEN_COOKIE, CookieOp.clear ACCESS_TOKEN_COOKIE] ∧
    (verifyUserRefreshToken (logout demoStore [] demoUser1).2.1 "tokA" demoUser1.id).1 =
      Except.error (.unauthorized "Refresh token is not valid.") := by
  have h := C6_logout_correct demoStore [] demoUser1 (by decide)
  exact ⟨h.1, h.2.1, by simpa using h.2.2.1, h.2.2.2 "tokA"⟩

/-- Error frame of `setCookies`: when the store update fails, the operation
returns the error with store and sink exactly as they were. -/
theorem setCookies_error_frame (s : Store) (resp : Response)
    (uid aTok rTok : String) (eA eR : Nat) (e : AuthError)
    (he : (setCookies s resp uid aTok rTok eA eR).1 = Except.error e) :
    (setCookies s resp uid aTok rTok eA eR).2.1 = s ∧
    (setCookies s resp uid aTok rTok eA eR).2.2 = resp := by
  unfold setCookies updateRefreshToken at *
  by_cases h : s.any (fun x => x.id == uid) <;> simp [h] at he ⊢

/-- C10: in `setCookies` (hence in `login` and `signup`) the refresh-token
hash is persisted to the user store strictly before either cookie is
written to the sink; when the store update fails, the failure propagates
with the sink unchanged (and, for `setCookies`, the store unchanged as
well). -/
theorem C10_store_update_before_cookies (cfg : Config) (now : Nat)
    (s : Store) (resp : Response) (u : UserEntity) (d : CreateUserDto)
    (newId uid aTok rTok : String) (eA eR : Nat) :
    (∀ e, (setCookies s resp uid aTok rTok eA eR).1 = Except.error e →
      (setCookies s resp uid aTok rTok eA eR).2.1 = s ∧
      (setCookies s resp uid aTok rTok eA eR).2.2 = resp) ∧
    (∀ e, (login cfg now s resp u).1 = Except.error e →
      (login cfg now s resp u).2.2 = resp) ∧
    (∀ e, (signup cfg now s resp d newId).1 = Except.error e →
      (signup cfg now s resp d newId).2.2 = resp) := by
  refine ⟨fun e he => setCookies_error_frame s resp uid aTok rTok eA eR e he,
    ?_, ?_⟩
  · intro e he
    unfold login at *
    exact (setCookies_error_frame _ _ _ _ _ _ _ e he).2
  · intro e he
    unfold signup findOne at *
    cases hf : s.find? (fun x => x.email == d.email) with
    | some v => simp [hf] at he ⊢
    | none =>
      rw [hf] at he
      exact (setCookies_error_frame (create s d newId).1 resp (create s d newId).2.id
        (generateTokens cfg now (create s d newId).2.id).accessToken
        (generateTokens cfg now (create s d newId).2.id).refreshToken
        (generateTokens cfg now (create s d newId).2.id).expireAccessToken
        (generateTokens cfg now (create s d newId).2.id).expireRefreshToken e he).2

/-- Witness for C10 at a concrete input: on the empty store the update
fails NotFound and `setCookies` leaves store and sink untouched. -/
theorem C10_store_update_before_cookies_witness :
    (setCookies [] [] "u9" "a" "r" 1 2).2.1 = ([] : Store) ∧
    (setCookies [] [] "u9" "a" "r" 1 2).2.2 = ([] : Response) :=
  (C10_store_update_before_cookies demoConfig 0 [] [] demoUser1
    { email := "e@x.io", password := "p" } "n1" "u9" "a" "r" 1 2).1
    AuthError.notFound (by rfl)

/-- Operations of the Session Authenticator, as invoked by a driver. -/
inductive AuthOp where
  | opLogin (user : UserEntity)
  | opSignup (d : CreateUserDto) (newId : String)
  | opLogout (user : UserEntity)
  | opValidate (email password : String)
  | opVerify (refreshToken userId : String)

/-- Store update of `validateUser` seen from outside: none, whatever the
outcome. -/
theorem validateUser_store_eq (s : Store) (email password : String) :
    (validateUser s email password).2 = s := by
  unfold validateUser
  cases validateUserTry s email password <;> rfl

/-- Store update of `verifyUserRefreshToken` seen from outside: none,
whatever the outcome. -/
theorem verifyUserRefreshToken_store_eq (s : Store) (rt uid : String) :
    (verifyUserRefreshToken s rt uid).2 = s := by
  unfold verifyUserRefreshToken
  cases verifyUserRefreshTokenTry s rt uid <;> rfl

/-- State transition of one Authenticator operation on store and sink,
whatever the outcome of the operation. -/
def applyOp (cfg : Config) (now : Nat) (op : AuthOp) (st : Store × Response) :
    Store × Response :=
  match op with
  | .opLogin u => (login cfg now st.1 st.2 u).2
  | .opSignup d newId => (signup cfg now st.1 st.2 d newId).2
  | .opLogout u => (logout st.1 st.2 u).2
  | .opValidate e p => ((validateUser st.1 e p).2, st.2)
  | .opVerify rt uid => ((verifyUserRefreshToken st.1 rt uid).2, st.2)

/-- Freshness guarantee of the id generator of the store: the id a signup
assigns is not yet in use.  Trivial for every other operation. -/
def freshFor (op : AuthOp) (s : Store) : Prop :=
  match op with
  | .opSignup _ newId => ∀ u ∈ s, u.id ≠ newId
  | _ => True

/-- Store well-formedness: user ids are pairwise distinct. -/
def uniqueIds (s : Store) : Prop :=
  (s.map (fun u => u.id)).Nodup

/-- All stored refresh-token hashes held for a given user id. -/
def hashesFor (s : Store) (id : String) : List String :=
  (s.filter (fun u => u.id == id)).filterMap (fun u => u.refreshToken)

/-- States reachable by the Authenticator from a well-formed store. -/
inductive ReachableState (cfg : Config) : Store × Response → Prop where
  | init (s : Store) (resp : Response) :
      uniqueIds s → ReachableState cfg (s, resp)
  | step (st : Store × Response) (op : AuthOp) (now : Nat) :
      ReachableState cfg st → freshFor op st.1 →
      ReachableState cfg (applyOp cfg now op st)

/-- Rewriting the stored hash of one user changes no user id. -/
theorem ids_map_update (s : Store) (id : String) (rt : Option String) :
    (s.map (fun u => if u.id == id then { u with refreshToken := rt } else u)).map
      (fun u => u.id) = s.map (fun u => u.id) := by
  rw [List.map_map]
  apply List.map_congr_left
  intro u _
  by_cases h : u.id = id <;> simp [h]

/-- The ids of the store after a `login` are the ids before it. -/
theorem login_store_ids (cfg : Config) (now : Nat) (s : Store)
    (resp : Response) (u : UserEntity) :
    ((login cfg now s resp u).2.1).map (fun x => x.id) =
      s.map (fun x => x.id) := by
  unfold login setCookies updateRefreshToken
  by_cases h : s.any (fun x => x.id == u.id) <;> simp [h]
  intro a _
  by_cases hh : a.id = u.id <;> simp [hh]

/-- The ids of the store after a `logout` are the ids before it. -/
theorem logout_store_ids (s : Store) (resp : Response) (u : UserEntity) :
    ((logout s resp u).2.1).map (fun x => x.id) = s.map (fun x => x.id) := by
  unfold logout updateRefreshToken
  by_cases h : s.any (fun x => x.id == u.id) <;> simp [h]
  intro a _
  by_cases hh : a.id = u.id <;> simp [hh]

/-- The ids of the store after a `signup` are the ids before it, possibly
extended by the id of the created user. -/
theorem signup_store_ids (cfg : Config) (now : Nat) (s : Store)
    (resp : Response) (d : CreateUserDto) (newId : String) :
    ((signup cfg now s resp d newId).2.1).map (fun x => x.id) =
        s.map (fun x => x.id) ∨
    ((signup cfg now s resp d newId).2.1).map (fun x => x.id) =
        s.map (fun x => x.id) ++ [newId] := by
  unfold signup findOne
  cases hf : s.find? (fun x => x.email == d.email) with
  | some v => left; rfl
  | none =>
    right
    show ((setCookies (create s d newId).1 resp (create s d newId).2.id
        (generateTokens cfg now (create s d newId).2.id).accessToken
        (generateTokens cfg now (create s d newId).2.id).refreshToken
        (generateTokens cfg now (create s d newId).2.id).expireAccessToken
        (generateTokens cfg now (create s d newId).2.id).expireRefreshToken).2.1).map
          (fun x => x.id) = s.map (fun x => x.id) ++ [newId]
    have hany : ((create s d newId).1.any
        (fun x => x.id == (create s d newId).2.id)) = true := by
      unfold create
      simp
    unfold setCookies updateRefreshToken
    simp only [hany, if_true]
    rw [ids_map_update]
    unfold create
    simp

/-- Each Authenticator operation preserves distinctness of user ids, given
the freshness guarantee of the id generator. -/
theorem uniqueIds_applyOp (cfg : Config) (now : Nat) (op : AuthOp)
    (st : Store × Response) (h : uniqueIds st.1) (hf : freshFor op st.1) :
    uniqueIds (applyOp cfg now op st).1 := by
  cases op with
  | opLogin u =>
    show uniqueIds (login cfg now st.1 st.2 u).2.1
    unfold uniqueIds at *
    rw [login_store_ids]
    exact h
  | opLogout u =>
    show uniqueIds (logout st.1 st.2 u).2.1
    unfold uniqueIds at *
    rw [logout_store_ids]
    exact h
  | opSignup d newId =>
    show uniqueIds (signup cfg now st.1 st.2 d newId).2.1
    unfold uniqueIds at *
    rcases signup_store_ids cfg now st.1 st.2 d newId with he | he
    · rw [he]; exact h
    · rw [he]
      refine List.nodup_append.mpr ⟨h, List.nodup_singleton _, ?_⟩
      intro a ha hb
      rcases List.mem_map.mp ha with ⟨u, hu, hua⟩
      have hb1 : a = newId := List.mem_singleton.mp hb
      exact hf u hu (hua.symm ▸ hb1 ▸ rfl)
  | opValidate e p =>
    show uniqueIds (validateUser st.1 e p).2
    rw [validateUser_store_eq]
    exact h
  | opVerify rt uid =>
    show uniqueIds (verifyUserRefreshToken st.1 rt uid).2
    rw [verifyUserRefreshToken_store_eq]
    exact h

/-- With pairwise distinct ids, at most one record matches a given id. -/
theorem filter_id_length_le_one (s : Store) (id : String)
    (h : uniqueIds s) : (s.filter (fun u => u.id == id)).length ≤ 1 := by
  induction s with
  | nil => simp
  | cons a l ih =>
    rw [uniqueIds, List.map_cons, List.nodup_cons] at h
    by_cases ha : a.id == id
    · have hnil : l.filter (fun u => u.id == id) = [] := by
        rw [List.filter_eq_nil_iff]
        intro u hu hp
        refine h.1 (List.mem_map.mpr ⟨u, hu, ?_⟩)
        have h1 : u.id = id := by simpa using hp
        have h2 : a.id = id := by simpa using ha
        rw [h1, h2]
      have hstep : (a :: l).filter (fun u => u.id == id) =
          a :: l.filter (fun u => u.id == id) := by
        simp [List.filter_cons, ha]
      rw [hstep, hnil]
      simp
    · have hstep : (a :: l).filter (fun u => u.id == id) =
          l.filter (fun u => u.id == id) := by
        simp [List.filter_cons, ha]
      rw [hstep]
      exact ih h.2

/-- With pairwise distinct ids, a user holds at most one stored hash. -/
theorem hashesFor_length_le_one (s : Store) (id : String)
    (h : uniqueIds s) : (hashesFor s id).length ≤ 1 :=
  le_trans (List.length_filterMap_le _ _) (filter_id_length_le_one s id h)

/-- C7: every Authenticator operation preserves the invariant that each
user holds at most one stored refresh-token hash: from any well-formed
initial store, every reachable state keeps user ids distinct and holds at
most one stored hash per user id. -/
theorem C7_at_most_one_hash_invariant (cfg : Config) (st : Store × Response)
    (h : ReachableState cfg st) :
    uniqueIds st.1 ∧ ∀ id, (hashesFor st.1 id).length ≤ 1 := by
  induction h with
  | init s resp hu => exact ⟨hu, fun id => hashesFor_length_le_one s id hu⟩
  | step st op now _ hf ih =>
    have hu := uniqueIds_applyOp cfg now op st ih.1 hf
    exact ⟨hu, fun id => hashesFor_length_le_one _ id hu⟩

/-- Witness for C7 at a concrete input: the demo store is a reachable state
and holds at most one hash for user u1. -/
theorem C7_at_most_one_hash_invariant_witness :
    uniqueIds (demoStore, ([] : Response)).1 ∧
    (hashesFor (demoStore, ([] : Response)).1 "u1").length ≤ 1 := by
  have h := C7_at_most_one_hash_invariant demoConfig (demoStore, ([] : Response))
    (ReachableState.init demoStore [] (by unfold uniqueIds; decide))
  exact ⟨h.1, h.2 "u1"⟩

/-- Raw process environment as `generateTokens` reads it: each of the four
configuration variables is possibly absent. -/
structure Env where
  jwtAccessTokenSecret : Option String
  jwtAccessTokenExpirationMs : Option String
  jwtRefreshTokenSecret : Option String
  jwtRefreshTokenExpirationMs : Option String
deriving DecidableEq, Repr

/-- JavaScript `parseInt` applied to a possibly absent environment value:
an absent variable (parseInt of undefined) and a value with no leading
digits give NaN, modelled `none`; otherwise the leading decimal digits are
parsed. -/
def parseIntJs (v : Option String) : Option Nat :=
  match v with
  | none => none
  | some str =>
    let digits := str.toList.takeWhile (fun c => c.isDigit)
    if digits.isEmpty then none
    else some (digits.foldl (fun acc c => acc * 10 + (c.toNat - 48)) 0)

/-- The two expiry instants of `generateTokens` computed over the raw
environment, exactly as the source computes them per call: setTime of now
plus parseInt of the raw variable; with an absent lifetime the sum is NaN
and the instant invalid, modelled `none`. -/
def generateTokensExpiries (env : Env) (now : Nat) : Option Nat × Option Nat :=
  ((parseIntJs env.jwtAccessTokenExpirationMs).map (fun ms => now + ms),
   (parseIntJs env.jwtRefreshTokenExpirationMs).map (fun ms => now + ms))

/-- Modelled from the spec: startup validation of the four required
configuration values (the configuration wiring of the application module is
not among the extracted sources; the spec makes absence a startup-fatal
misconfiguration).  All four must be present and both lifetimes must parse
to numbers; the validated configuration is returned. -/
def validateConfig (env : Env) : Except String Config :=
  match env.jwtAccessTokenSecret, parseIntJs env.jwtAccessTokenExpirationMs,
      env.jwtRefreshTokenSecret, parseIntJs env.jwtRefreshTokenExpirationMs with
  | some accessSecret, some accessMs, some refreshSecret, some refreshMs =>
    .ok { accessTokenSecret := accessSecret, accessTokenExpirationMs := accessMs,
          refreshTokenSecret := refreshSecret, refreshTokenExpirationMs := refreshMs }
  | _, _, _, _ => .error "Misconfiguration"

/-- Modelled from the spec: the startup path of `bootstrap` fails fast on a
misconfigured environment, before the service starts handling requests. -/
def bootstrap (env : Env) : Except String Config :=
  validateConfig env

/-- C8: when any of the four required configuration values is missing,
startup fails fast instead of proceeding; and whenever startup validation
succeeds, per-request token generation over the same raw environment
produces the two valid expiry instants now plus the validated lifetimes,
never a NaN expiry. -/
theorem C8_config_fail_fast (env : Env) (now : Nat) :
    ((env.jwtAccessTokenSecret = none ∨ env.jwtAccessTokenExpirationMs = none ∨
      env.jwtRefreshTokenSecret = none ∨ env.jwtRefreshTokenExpirationMs = none) →
      ∃ e, bootstrap env = Except.error e) ∧
    (∀ cfg, bootstrap env = Except.ok cfg →
      generateTokensExpiries env now =
        (some (now + cfg.accessTokenExpirationMs),
         some (now + cfg.refreshTokenExpirationMs))) := by
  constructor
  · intro hmiss
    refine ⟨"Misconfiguration", ?_⟩
    unfold bootstrap validateConfig
    rcases hmiss with hm | hm | hm | hm <;> rw [hm] <;> simp [parseIntJs]
  · intro cfg hok
    unfold bootstrap validateConfig at hok
    unfold generateTokensExpiries
    cases h1 : env.jwtAccessTokenSecret with
    | none => rw [h1] at hok; exact absurd hok (by simp)
    | some a =>
      cases h2 : parseIntJs env.jwtAccessTokenExpirationMs with
      | none => rw [h1, h2] at hok; exact absurd hok (by simp)
      | some ams =>
        cases h3 : env.jwtRefreshTokenSecret with
        | none => rw [h1, h2, h3] at hok; exact absurd hok (by simp)
        | some r =>
          cases h4 : parseIntJs env.jwtRefreshTokenExpirationMs with
          | none => rw [h1, h2, h3, h4] at hok; exact absurd hok (by simp)
          | some rms =>
            rw [h1, h2, h3, h4] at hok
            simp only [Except.ok.injEq] at hok
            rw [← hok]
            simp

/-- Demo environment with a missing access-token lifetime. -/
def demoEnvMissing : Env :=
  { jwtAccessTokenSecret := some "sA", jwtAccessTokenExpirationMs := none,
    jwtRefreshTokenSecret := some "sR", jwtRefreshTokenExpirationMs := some "5000" }

/-- Demo environment carrying all four required values. -/
def demoEnvFull : Env :=
  { jwtAccessTokenSecret := some "sA", jwtAccessTokenExpirationMs := some "1000",
    jwtRefreshTokenSecret := some "sR", jwtRefreshTokenExpirationMs := some "5000" }

/-- Witness for C8 at concrete inputs: startup fails on the environment
missing the access lifetime, and on the complete environment token
generation at instant 7 yields the two valid expiry instants. -/
theorem C8_config_fail_fast_witness :
    (∃ e, bootstrap demoEnvMissing = Except.error e) ∧
    generateTokensExpiries demoEnvFull 7 = (some 1007, some 5007) := by
  constructor
  · exact (C8_config_fail_fast demoEnvMissing 0).1 (Or.inr (Or.inl rfl))
  · have h := (C8_config_fail_fast demoEnvFull 7).2
      { accessTokenSecret := "sA", accessTokenExpirationMs := 1000,
        refreshTokenSecret := "sR", refreshTokenExpirationMs := 5000 } (by rfl)
    simpa using h
